import Mathlib

/-!
Verification of the SparkFun Toolkit register-bus core.

This file shallowly embeds the parts of the SparkFun_Toolkit sources that the
checked claims are about:

* the error-code taxonomy (`src/sfTk/sfTkError.h`, `src/sfTk/sfTkIBus.h`);
* the byte-order utilities (`src/sfTk/sfToolkit.cpp`);
* the generic-bus typed accessors (`src/sfTk/sfTkIBus.h`);
* the addressed-bus refinements (`src/sfTk/sfTkII2C.h`, `src/sfTk/sfTkISPI.h`);
* the stream-adapter bus (`src/sfTk/sfTkISerialBus.h`);
* the chunked two-wire read/write binding (`src/sfTkArdI2C.cpp`, `sfTkArdI2C.h`).

Machine integers are modelled as `Nat`/`Int` with explicit `% 2^w` at the
points where the C++ declarations truncate (`uint8_t nChunk`,
`uint16_t nOrig`).  The physical peripheral (Arduino `TwoWire`/stream) is an
external collaborator; it is modelled by explicit parameters: a supply
function giving how many bytes the peripheral yields for each chunk request
(never more than requested, as `TwoWire::requestFrom` guarantees), a flag for
the address-phase `endTransmission` result, and result codes for the
stream primitives.
-/

/-! ## Error taxonomy (src/sfTk/sfTkError.h, src/sfTk/sfTkIBus.h) -/

/-- General failure code, `ksfTkErrFail = -1` (sfTkError.h). -/
def ksfTkErrFail : Int := -1

/-- Success code, `ksfTkErrOk = 0` (sfTkError.h). -/
def ksfTkErrOk : Int := 0

/-- Invalid-parameter code, `ksfTkErrInvalidParam = -2` (sfTkError.h). -/
def ksfTkErrInvalidParam : Int := -2

/-- Base value for bus errors, `ksfTkErrBaseBus = 0x1000` (sfTkError.h). -/
def ksfTkErrBaseBus : Int := 0x1000

/-- Bus not initialized, `ksfTkErrFail * (ksfTkErrBaseBus + 1)` (sfTkIBus.h). -/
def ksfTkErrBusNotInit : Int := ksfTkErrFail * (ksfTkErrBaseBus + 1)

/-- Null or invalid buffer, `ksfTkErrFail * (ksfTkErrBaseBus + 6)` (sfTkIBus.h). -/
def ksfTkErrBusNullBuffer : Int := ksfTkErrFail * (ksfTkErrBaseBus + 6)

/-- Under-read warning (positive advisory), `ksfTkErrBaseBus + 7` (sfTkIBus.h). -/
def ksfTkErrBusUnderRead : Int := ksfTkErrBaseBus + 7

/-! ## Byte order utilities (src/sfTk/sfToolkit.h, src/sfTk/sfToolkit.cpp) -/

/-- Byte-order enum `sfTkByteOrder` (sfToolkit.h). -/
inductive sfTkByteOrder : Type where
  | BigEndian : sfTkByteOrder
  | LittleEndian : sfTkByteOrder
deriving DecidableEq

/-- Byte swap of a `uint8_t`: the identity (sfToolkit.cpp, 8-bit overload of
`sftk_byte_swap`). -/
def sftk_byte_swap8 (i : Nat) : Nat := i

/-- Byte swap of a `uint16_t`: `(i << 8) | (i >> 8)` on a 16-bit value, i.e.
the two bytes exchanged (sfToolkit.cpp, 16-bit overload of `sftk_byte_swap`).
The `% 256` on the high byte keeps the function total; for `i < 2 ^ 16` it is
the identity on `i / 256`. -/
def sftk_byte_swap16 (i : Nat) : Nat :=
  (i % 256) * 256 + (i / 256) % 256

/-- Byte swap of a `uint32_t`: the four bytes reversed (sfToolkit.cpp, 32-bit
overload of `sftk_byte_swap`). -/
def sftk_byte_swap32 (i : Nat) : Nat :=
  (i % 256) * 16777216 + ((i / 256) % 256) * 65536
    + ((i / 65536) % 256) * 256 + (i / 16777216) % 256

/-- Two's-complement bit pattern of an `int16_t` as a `uint16_t`
(the `*(uint16_t *)&i` reinterpretation in sfToolkit.cpp). -/
def sftk_uint16_of_int16 (i : Int) : Nat := (i % 65536).toNat

/-- An `int16_t` read back from a `uint16_t` bit pattern
(the `*(int16_t *)&tmp` reinterpretation in sfToolkit.cpp). -/
def sftk_int16_of_uint16 (n : Nat) : Int :=
  if n % 65536 < 32768 then ((n % 65536 : Nat) : Int)
  else ((n % 65536 : Nat) : Int) - 65536

/-- Byte swap of an `int16_t`: reinterpret as `uint16_t`, swap, reinterpret
back (sfToolkit.cpp, `int16_t` overload of `sftk_byte_swap`). -/
def sftk_byte_swap_int16 (i : Int) : Int :=
  sftk_int16_of_uint16 (sftk_byte_swap16 (sftk_uint16_of_int16 i))

/-- Two's-complement bit pattern of an `int32_t` as a `uint32_t`. -/
def sftk_uint32_of_int32 (i : Int) : Nat := (i % 4294967296).toNat

/-- An `int32_t` read back from a `uint32_t` bit pattern. -/
def sftk_int32_of_uint32 (n : Nat) : Int :=
  if n % 4294967296 < 2147483648 then ((n % 4294967296 : Nat) : Int)
  else ((n % 4294967296 : Nat) : Int) - 4294967296

/-- Byte swap of an `int32_t`: reinterpret as `uint32_t`, swap, reinterpret
back (sfToolkit.cpp, `int32_t` overload of `sftk_byte_swap`). -/
def sftk_byte_swap_int32 (i : Int) : Int :=
  sftk_int32_of_uint32 (sftk_byte_swap32 (sftk_uint32_of_int32 i))

/-! ## Addressed-bus refinements (src/sfTk/sfTkII2C.h, src/sfTk/sfTkISPI.h) -/

/-- The no-address sentinel `sfTkII2C::kNoAddress = 0` (sfTkII2C.h). -/
def kNoAddress : Nat := 0

/-- The no-pin sentinel `sfTkISPI::kNoCSPin = 0` (sfTkISPI.h). -/
def kNoCSPin : Nat := 0

/-- The state carried by a two-wire bus `sfTkII2C`: device address and the
send-stop framing flag (sfTkII2C.h, fields `_address` and `_stop`). -/
structure sfTkII2CState where
  address : Nat
  stop : Bool
deriving DecidableEq

/-- A default-constructed `sfTkII2C`: `sfTkII2C() : _address{kNoAddress},
_stop{true}` (sfTkII2C.h lines 33–35). -/
def sfTkII2CDefault : sfTkII2CState :=
  { address := kNoAddress, stop := true }

/-- The state carried by a chip-select bus `sfTkISPI` (sfTkISPI.h, field
`_cs`). -/
structure sfTkISPIState where
  cs : Nat
deriving DecidableEq

/-- A default-constructed `sfTkISPI`: `sfTkISPI() : _cs{kNoCSPin}`
(sfTkISPI.h lines 32–34). -/
def sfTkISPIDefault : sfTkISPIState :=
  { cs := kNoCSPin }

/-! ## I2C transfer chunk size (src/sfTkArdI2C.h) -/

/-- Default transfer chunk size `sfTkArdI2C::kDefaultBufferChunk = 32`
(sfTkArdI2C.h lines 229–230); the default constructor initializes
`_bufferChunkSize` with it. -/
def kDefaultBufferChunk : Nat := 32

/-- The setter `sfTkArdI2C::setBufferChunkSize` (sfTkArdI2C.h lines 199–203):
`if (theChunk > 0) _bufferChunkSize = theChunk;` — a zero argument leaves the
stored chunk size unchanged. -/
def setBufferChunkSize (bufferChunkSize theChunk : Nat) : Nat :=
  if 0 < theChunk then theChunk else bufferChunkSize

/-- The stored chunk size after a sequence of `setBufferChunkSize` calls with
the given arguments, starting from `start`. -/
def applyBufferChunkSizeOps (start : Nat) (ops : List Nat) : Nat :=
  ops.foldl setBufferChunkSize start

/-! ## Typed read accessors of the generic bus (src/sfTk/sfTkIBus.h)

Each accessor is modelled as a function of the outcome of the abstract
primitive `readRegister(uint8_t *devReg, size_t regLength, uint8_t *data,
size_t numBytes, size_t &readBytes)`: the primitive's status code `retValue`,
the byte count `nRead` it deposited in the out-parameter, and the value `raw`
it left in the data buffer (interpreted in host byte order).  Each model
returns the accessor's status code paired with the value handed to the
caller. -/

/-- Byte accessor `sfTkIBus::readRegister(uint8_t devReg, uint8_t &data)`
(sfTkIBus.h lines 478–484). -/
def readRegisterUInt8Reg8 (retValue : Int) (nRead : Nat) (raw : Nat) :
    Int × Nat :=
  (if retValue = ksfTkErrOk ∧ nRead = 1 then ksfTkErrOk else retValue, raw)

/-- Word accessor `sfTkIBus::readRegister(uint8_t devReg, uint16_t &data)`
(sfTkIBus.h lines 508–518): swaps the value when the status is `Ok` and the
configured order differs from host order, then returns
`retVal == Ok && nRead == 2 ? Ok : retVal`. -/
def readRegisterUInt16Reg8 (host cfg : sfTkByteOrder) (retValue : Int)
    (nRead : Nat) (raw : Nat) : Int × Nat :=
  (if retValue = ksfTkErrOk ∧ nRead = 2 then ksfTkErrOk else retValue,
    if retValue = ksfTkErrOk ∧ host ≠ cfg then sftk_byte_swap16 raw else raw)

/-- Dword accessor `sfTkIBus::readRegister(uint8_t devReg, uint32_t &data)`
(sfTkIBus.h lines 541–551). -/
def readRegisterUInt32Reg8 (host cfg : sfTkByteOrder) (retValue : Int)
    (nRead : Nat) (raw : Nat) : Int × Nat :=
  (if retValue = ksfTkErrOk ∧ nRead = 4 then ksfTkErrOk else retValue,
    if retValue = ksfTkErrOk ∧ host ≠ cfg then sftk_byte_swap32 raw else raw)

/-- Byte accessor at a 16-bit register address,
`sfTkIBus::readRegister(uint16_t reg, uint8_t &value)` (sfTkIBus.h lines
592–601): returns `retValue` with no byte-count check at all. -/
def readRegisterUInt8Reg16 (retValue : Int) (raw : Nat) : Int × Nat :=
  (retValue, raw)

/-- Word accessor at a 16-bit register address,
`sfTkIBus::readRegister(uint16_t reg, uint16_t &value)` (sfTkIBus.h lines
628–641): swaps on `Ok`, returns `retValue` with no byte-count check. -/
def readRegisterUInt16Reg16 (host cfg : sfTkByteOrder) (retValue : Int)
    (raw : Nat) : Int × Nat :=
  (retValue,
    if retValue = ksfTkErrOk ∧ host ≠ cfg then sftk_byte_swap16 raw else raw)

/-- Dword accessor at a 16-bit register address,
`sfTkIBus::readRegister(uint16_t reg, uint32_t &value)` (sfTkIBus.h lines
668–681). -/
def readRegisterUInt32Reg16 (host cfg : sfTkByteOrder) (retValue : Int)
    (raw : Nat) : Int × Nat :=
  (retValue,
    if retValue = ksfTkErrOk ∧ host ≠ cfg then sftk_byte_swap32 raw else raw)

/-! ## Addressed word write (src/sfTk/sfTkIBus.h, src/sfTkArdI2C.cpp) -/

/-- The two bytes of a `uint16_t` value as they sit in host memory, in the
given host byte order. -/
def sftk_uint16_bytes (host : sfTkByteOrder) (v : Nat) : List Nat :=
  match host with
  | sfTkByteOrder.LittleEndian => [v % 256, v / 256 % 256]
  | sfTkByteOrder.BigEndian => [v / 256 % 256, v % 256]

/-- The byte sequence transmitted on the wire by
`sfTkIBus::writeRegister(uint8_t devReg, const uint16_t data)` (sfTkIBus.h
lines 229–237) on a two-wire bus: the value is byte-swapped exactly when the
configured order differs from host order, then
`sfTkArdI2C::writeRegisterRegionAddress` (sfTkArdI2C.cpp lines 175–189) sends
the register byte followed by the raw value bytes in one transaction. -/
def writeRegisterUInt16Reg8 (host cfg : sfTkByteOrder) (devReg data : Nat) :
    List Nat :=
  [devReg % 256]
    ++ sftk_uint16_bytes host
      (if host ≠ cfg then sftk_byte_swap16 data else data)

/-! ## 16-bit word-array read (src/sfTk/sfTkIBus.h, src/sfTkArdI2C.cpp)

The buffer is modelled as the list of 16-bit words (host-order values) that
the underlying byte read left in `data`; `rawCount` is the raw byte count the
primitive wrote into the out-parameter. -/

/-- Word-array read `sfTkIBus::readRegister(uint16_t reg, uint16_t *data,
size_t length, size_t &read16)` (sfTkIBus.h lines 730–742): when the status is
`Ok` and the configured order differs from host order, every element is
byte-swapped; the out-parameter is converted from a byte count to a word count
by `read16 = read16 / 2`. -/
def readRegisterUInt16ArrayReg16 (host cfg : sfTkByteOrder) (retValue : Int)
    (rawCount : Nat) (buf : List Nat) : Int × Nat × List Nat :=
  (retValue, rawCount / 2,
    if retValue = ksfTkErrOk ∧ host ≠ cfg then buf.map sftk_byte_swap16 else buf)

/-- The same structure in the two-wire binding,
`sfTkArdI2C::readRegister16Region16` (sfTkArdI2C.cpp lines 395–411): swap each
element when the status is `Ok` and orders differ, then
`readWords = readWords / 2`. -/
def readRegister16Region16 (host cfg : sfTkByteOrder) (status : Int)
    (rawCount : Nat) (buf : List Nat) : Int × Nat × List Nat :=
  (status, rawCount / 2,
    if status = ksfTkErrOk ∧ host ≠ cfg then buf.map sftk_byte_swap16 else buf)

/-! ## Stream-adapter bus (src/sfTk/sfTkISerialBus.h)

The abstract serial primitives `write(data, length)` and
`read(data, length, readBytes)` are modelled by their result codes
(`regWriteResult` for the address-byte write, `dataWriteResult`/`readResult`
for the data transfer) and by the count `readCount` the read deposits.  Each
model also returns the list of primitive operations performed, so that
"no transport call" is a provable statement. -/

/-- A primitive operation of the serial interface, with the byte count it was
given. -/
inductive SerialOp : Type where
  | writeOp : Nat → SerialOp
  | readOp : Nat → SerialOp
deriving DecidableEq

/-- Adapter write `sfTkISerialBus::writeRegister` (sfTkISerialBus.h lines
55–64): if address bytes are present they are written and the result is
discarded; the data write is performed unconditionally and its status is
returned. -/
def sfTkISerialBus_writeRegister (regWriteResult dataWriteResult : Int)
    (hasReg : Bool) (regLength dataLength : Nat) : Int × List SerialOp :=
  if hasReg = true ∧ 0 < regLength then
    (dataWriteResult, [SerialOp.writeOp regLength, SerialOp.writeOp dataLength])
  else
    (dataWriteResult, [SerialOp.writeOp dataLength])

/-- Adapter read `sfTkISerialBus::readRegister` (sfTkISerialBus.h lines
86–106): a null buffer fails fast before any transport call; a failing
address-byte write is returned with no read performed; otherwise the read's
status and count are returned. -/
def sfTkISerialBus_readRegister (regWriteResult readResult : Int)
    (readCount : Nat) (dataNull hasReg : Bool) (regLength numBytes : Nat) :
    Int × Option Nat × List SerialOp :=
  if dataNull = true then (ksfTkErrBusNullBuffer, none, [])
  else if hasReg = true ∧ 0 < regLength then
    if regWriteResult ≠ ksfTkErrOk then
      (regWriteResult, none, [SerialOp.writeOp regLength])
    else
      (readResult, some readCount,
        [SerialOp.writeOp regLength, SerialOp.readOp numBytes])
  else
    (readResult, some readCount, [SerialOp.readOp numBytes])

/-! ## Chunked two-wire read (src/sfTkArdI2C.cpp)

`sfTkArdI2C::readRegisterRegionAnyAddress` (sfTkArdI2C.cpp lines 251–307) is
the chunked read.  The peripheral is modelled by `supply : Nat → Nat`, the
number of bytes the simulated `TwoWire::requestFrom` yields on its k-th call;
a real `TwoWire` never returns more than requested, so the modelled return
value is `min (supply k) nChunk`.  The C++ locals keep their declared widths:
`uint8_t nChunk` truncates with `% 256`, `uint16_t nOrig` with `% 65536`.
Recursion is by fuel; the initial call passes `numBytes` as fuel, which always
suffices because every continuing iteration consumes at least one byte. -/

/-- One chunk request of the chunked read: the byte count passed to
`requestFrom`, the stop-framing flag passed with it (`nChunk == numBytes ?
true : stop()`), and the byte count the peripheral returned. -/
structure I2CReadEvent where
  requested : Nat
  stopFlag : Bool
  returned : Nat
deriving DecidableEq

/-- The `while (numBytes > 0)` loop of `readRegisterRegionAnyAddress`
(sfTkArdI2C.cpp lines 271–302), after the first-iteration address phase has
succeeded.  Arguments after `supply` are fuel, the bytes still to read
(`numBytes`), and the index of the next `requestFrom` call.  The result is
the list of chunk requests issued, the final value of `numBytes`, and whether
the loop aborted through the `nReturned == 0` early return. -/
def i2cReadLoop (bufferChunkSize : Nat) (cfgStop : Bool) (supply : Nat → Nat) :
    Nat → Nat → Nat → List I2CReadEvent × Nat × Bool
  | 0, numBytes, _ => ([], numBytes, false)
  | fuel + 1, numBytes, k =>
    if numBytes = 0 then ([], 0, false)
    else
      let nChunk := min numBytes bufferChunkSize % 256
      let stopF := if nChunk = numBytes then true else cfgStop
      let nReturned := min (supply k) nChunk
      if nReturned = 0 then ([⟨nChunk, stopF, 0⟩], numBytes, true)
      else
        let rest :=
          i2cReadLoop bufferChunkSize cfgStop supply fuel
            (numBytes - nReturned) (k + 1)
        (⟨nChunk, stopF, nReturned⟩ :: rest.1, rest.2)

/-- The observable outcome of `readRegisterRegionAnyAddress`: the returned
status, the out-parameter `readBytes` (`none` when the function returns before
assigning it), the chunk requests issued, and whether the address-phase
transaction was performed. -/
structure I2CReadResult where
  status : Int
  readBytes : Option Nat
  events : List I2CReadEvent
  addrPhase : Bool
deriving DecidableEq

/-- `sfTkArdI2C::readRegisterRegionAnyAddress` (sfTkArdI2C.cpp lines 251–307).
`hasPort` models `_i2cPort != nullptr`, `dataNull` models `data == nullptr`,
`endTransmissionZero` models the address-phase `endTransmission(stop()) == 0`.
On the early `nReturned == 0` return the out-parameter keeps the `0` assigned
on entry; on loop completion `readBytes = nOrig - numBytes` with
`uint16_t nOrig = numBytes` (the loop only exits with `numBytes == 0`). -/
def readRegisterRegionAnyAddress (hasPort dataNull : Bool)
    (bufferChunkSize : Nat) (cfgStop : Bool) (endTransmissionZero : Bool)
    (supply : Nat → Nat) (numBytes : Nat) : I2CReadResult :=
  if hasPort = false then ⟨ksfTkErrBusNotInit, none, [], false⟩
  else if dataNull = true then ⟨ksfTkErrBusNullBuffer, none, [], false⟩
  else if numBytes = 0 then ⟨ksfTkErrOk, some 0, [], false⟩
  else if endTransmissionZero = false then ⟨ksfTkErrFail, some 0, [], true⟩
  else
    let run := i2cReadLoop bufferChunkSize cfgStop supply numBytes numBytes 0
    if run.2.2 = true then ⟨ksfTkErrBusUnderRead, some 0, run.1, true⟩
    else
      let nOrig := numBytes % 65536
      let readBytes := nOrig - run.2.1
      ⟨if readBytes = nOrig then ksfTkErrOk else ksfTkErrBusUnderRead,
        some readBytes, run.1, true⟩

/-! ### Small facts about the swap utilities -/

lemma sftk_byte_swap16_lt (v : Nat) : sftk_byte_swap16 v < 65536 := by
  unfold sftk_byte_swap16
  omega

lemma sftk_byte_swap32_lt (v : Nat) : sftk_byte_swap32 v < 4294967296 := by
  unfold sftk_byte_swap32
  omega

lemma sftk_byte_swap16_swap16 (v : Nat) (h : v < 65536) :
    sftk_byte_swap16 (sftk_byte_swap16 v) = v := by
  obtain ⟨a, b, ha, hb, rfl⟩ : ∃ a b, a < 256 ∧ b < 256 ∧ v = b * 256 + a :=
    ⟨v % 256, v / 256, by omega, by omega, by omega⟩
  unfold sftk_byte_swap16
  have e0 : (b * 256 + a) % 256 = a := by omega
  have e1 : (b * 256 + a) / 256 % 256 = b := by omega
  rw [e0, e1]
  have e2 : (a * 256 + b) % 256 = b := by omega
  have e3 : (a * 256 + b) / 256 % 256 = a := by omega
  rw [e2, e3]

lemma sftk_bytes_of_nat32 (a b c d : Nat) (ha : a < 256) (hb : b < 256)
    (hc : c < 256) (hd : d < 256) :
    (d * 16777216 + c * 65536 + b * 256 + a) % 256 = a ∧
    (d * 16777216 + c * 65536 + b * 256 + a) / 256 % 256 = b ∧
    (d * 16777216 + c * 65536 + b * 256 + a) / 65536 % 256 = c ∧
    (d * 16777216 + c * 65536 + b * 256 + a) / 16777216 % 256 = d :=
  ⟨by omega, by omega, by omega, by omega⟩

lemma sftk_byte_swap32_swap32 (v : Nat) (h : v < 4294967296) :
    sftk_byte_swap32 (sftk_byte_swap32 v) = v := by
  obtain ⟨a, b, c, d, ha, hb, hc, hd, rfl⟩ :
      ∃ a b c d, a < 256 ∧ b < 256 ∧ c < 256 ∧ d < 256 ∧
        v = d * 16777216 + c * 65536 + b * 256 + a :=
    ⟨v % 256, v / 256 % 256, v / 65536 % 256, v / 16777216,
      by omega, by omega, by omega, by omega, by omega⟩
  unfold sftk_byte_swap32
  obtain ⟨e0, e1, e2, e3⟩ := sftk_bytes_of_nat32 a b c d ha hb hc hd
  rw [e0, e1, e2, e3]
  obtain ⟨f0, f1, f2, f3⟩ := sftk_bytes_of_nat32 d c b a hd hc hb ha
  rw [f0, f1, f2, f3]

lemma sftk_uint16_of_int16_of_uint16 (n : Nat) (h : n < 65536) :
    sftk_uint16_of_int16 (sftk_int16_of_uint16 n) = n := by
  unfold sftk_uint16_of_int16 sftk_int16_of_uint16
  split <;> omega

lemma sftk_int16_of_uint16_of_int16 (i : Int) (h1 : -32768 ≤ i) (h2 : i < 32768) :
    sftk_int16_of_uint16 (sftk_uint16_of_int16 i) = i := by
  unfold sftk_uint16_of_int16 sftk_int16_of_uint16
  split <;> omega

lemma sftk_uint16_of_int16_lt (i : Int) : sftk_uint16_of_int16 i < 65536 := by
  unfold sftk_uint16_of_int16
  omega

lemma sftk_uint32_of_int32_of_uint32 (n : Nat) (h : n < 4294967296) :
    sftk_uint32_of_int32 (sftk_int32_of_uint32 n) = n := by
  unfold sftk_uint32_of_int32 sftk_int32_of_uint32
  split <;> omega

lemma sftk_int32_of_uint32_of_int32 (i : Int) (h1 : -2147483648 ≤ i)
    (h2 : i < 2147483648) :
    sftk_int32_of_uint32 (sftk_uint32_of_int32 i) = i := by
  unfold sftk_uint32_of_int32 sftk_int32_of_uint32
  split <;> omega

lemma sftk_uint32_of_int32_lt (i : Int) : sftk_uint32_of_int32 i < 4294967296 := by
  unfold sftk_uint32_of_int32
  omega

/-- C5: for every 16-bit and every 32-bit value, signed or unsigned,
`sftk_byte_swap` is an involution, and on 8-bit values it is the identity. -/
theorem sftk_byte_swap_involution :
    (∀ v : Nat, v < 256 → sftk_byte_swap8 v = v) ∧
    (∀ v : Nat, v < 65536 → sftk_byte_swap16 (sftk_byte_swap16 v) = v) ∧
    (∀ v : Nat, v < 4294967296 → sftk_byte_swap32 (sftk_byte_swap32 v) = v) ∧
    (∀ i : Int, -32768 ≤ i → i < 32768 →
      sftk_byte_swap_int16 (sftk_byte_swap_int16 i) = i) ∧
    (∀ i : Int, -2147483648 ≤ i → i < 2147483648 →
      sftk_byte_swap_int32 (sftk_byte_swap_int32 i) = i) := by
  refine ⟨fun v _ => rfl, fun v h => sftk_byte_swap16_swap16 v h,
    fun v h => sftk_byte_swap32_swap32 v h, fun i h1 h2 => ?_, fun i h1 h2 => ?_⟩
  · unfold sftk_byte_swap_int16
    rw [sftk_uint16_of_int16_of_uint16 _ (sftk_byte_swap16_lt _),
      sftk_byte_swap16_swap16 _ (sftk_uint16_of_int16_lt i),
      sftk_int16_of_uint16_of_int16 i h1 h2]
  · unfold sftk_byte_swap_int32
    rw [sftk_uint32_of_int32_of_uint32 _ (sftk_byte_swap32_lt _),
      sftk_byte_swap32_swap32 _ (sftk_uint32_of_int32_lt i),
      sftk_int32_of_uint32_of_int32 i h1 h2]

/-- Witness for C5 at concrete inputs. -/
theorem sftk_byte_swap_involution_witness :
    sftk_byte_swap8 200 = 200 ∧
    sftk_byte_swap16 (sftk_byte_swap16 0xABCD) = 0xABCD ∧
    sftk_byte_swap32 (sftk_byte_swap32 0x12345678) = 0x12345678 ∧
    sftk_byte_swap_int16 (sftk_byte_swap_int16 (-12345)) = -12345 ∧
    sftk_byte_swap_int32 (sftk_byte_swap_int32 (-123456789)) = -123456789 :=
  ⟨sftk_byte_swap_involution.1 200 (by norm_num),
    sftk_byte_swap_involution.2.1 0xABCD (by norm_num),
    sftk_byte_swap_involution.2.2.1 0x12345678 (by norm_num),
    sftk_byte_swap_involution.2.2.2.1 (-12345) (by norm_num) (by norm_num),
    sftk_byte_swap_involution.2.2.2.2 (-123456789) (by norm_num) (by norm_num)⟩

/-! ## C3: typed fixed-width reads and short transfers -/

/-- C3 counterexample: the word accessor at an 8-bit register address, given a
primitive outcome that reports `ksfTkErrOk` together with an actual byte count
of 1 (not the expected 2), itself returns `ksfTkErrOk` — the guard
`retVal == ksfTkErrOk && nRead == sizeof(uint16_t) ? ksfTkErrOk : retVal`
yields `retVal` in the mismatch case, which is `ksfTkErrOk` here.  This
refutes the claim that a width mismatch never yields `ksfTkErrOk`. -/
theorem typed_read_width_mismatch_yields_ok :
    (readRegisterUInt16Reg8 sfTkByteOrder.LittleEndian
        sfTkByteOrder.LittleEndian ksfTkErrOk 1 0).1 = ksfTkErrOk := by
  decide

/-- C3 as amended: every typed fixed-width accessor (byte, word, dword, over
8-bit and 16-bit register addresses) returns exactly the primitive's own
status code; in particular a short transfer reported with a non-`Ok` status is
surfaced as that status, but a short transfer nominally reported `Ok` is also
returned as `Ok` — the width comparison never alters the result. -/
theorem typed_read_status_is_primitive_status :
    ∀ (host cfg : sfTkByteOrder) (retValue : Int) (nRead raw : Nat),
      (readRegisterUInt8Reg8 retValue nRead raw).1 = retValue ∧
      (readRegisterUInt16Reg8 host cfg retValue nRead raw).1 = retValue ∧
      (readRegisterUInt32Reg8 host cfg retValue nRead raw).1 = retValue ∧
      (readRegisterUInt8Reg16 retValue raw).1 = retValue ∧
      (readRegisterUInt16Reg16 host cfg retValue raw).1 = retValue ∧
      (readRegisterUInt32Reg16 host cfg retValue raw).1 = retValue := by
  intro host cfg retValue nRead raw
  refine ⟨?_, ?_, ?_, rfl, rfl, rfl⟩
  · unfold readRegisterUInt8Reg8
    split
    · next h => exact h.1.symm
    · rfl
  · unfold readRegisterUInt16Reg8
    split
    · next h => exact h.1.symm
    · rfl
  · unfold readRegisterUInt32Reg8
    split
    · next h => exact h.1.symm
    · rfl

/-! ## C4: end-to-end byte sequence of an addressed word write -/

/-- C4: writing the 16-bit value `0x1234` to 8-bit register `0x10` on a
little-endian host transmits `[0x10, 0x34, 0x12]` when the configured byte
order is LittleEndian, and `[0x10, 0x12, 0x34]` when it is BigEndian: the
value is swapped exactly once, only when the configured order differs from
host order. -/
theorem writeRegisterUInt16_byte_sequence :
    writeRegisterUInt16Reg8 sfTkByteOrder.LittleEndian
        sfTkByteOrder.LittleEndian 0x10 0x1234 = [0x10, 0x34, 0x12] ∧
    writeRegisterUInt16Reg8 sfTkByteOrder.LittleEndian
        sfTkByteOrder.BigEndian 0x10 0x1234 = [0x10, 0x12, 0x34] := by
  decide

/-! ## C6: fail-fast precondition checks on the read paths -/

/-- C6: an unbound transport handle makes the chunked two-wire read return
`ksfTkErrBusNotInit` at once, and a null data buffer makes it return
`ksfTkErrBusNullBuffer` at once; in both cases no chunk request is issued, no
address-phase transaction is performed, and the out-parameter is never
assigned.  Likewise the stream-adapter read rejects a null buffer before any
transport call. -/
theorem read_precondition_fail_fast :
    (∀ (dataNull : Bool) (bufferChunkSize : Nat) (cfgStop endT : Bool)
        (supply : Nat → Nat) (numBytes : Nat),
      readRegisterRegionAnyAddress false dataNull bufferChunkSize cfgStop endT
          supply numBytes = ⟨ksfTkErrBusNotInit, none, [], false⟩) ∧
    (∀ (bufferChunkSize : Nat) (cfgStop endT : Bool) (supply : Nat → Nat)
        (numBytes : Nat),
      readRegisterRegionAnyAddress true true bufferChunkSize cfgStop endT
          supply numBytes = ⟨ksfTkErrBusNullBuffer, none, [], false⟩) ∧
    (∀ (regWriteResult readResult : Int) (readCount : Nat) (hasReg : Bool)
        (regLength numBytes : Nat),
      sfTkISerialBus_readRegister regWriteResult readResult readCount true
          hasReg regLength numBytes = (ksfTkErrBusNullBuffer, none, [])) :=
  ⟨fun _ _ _ _ _ _ => rfl, fun _ _ _ _ _ => rfl, fun _ _ _ _ _ _ => rfl⟩

/-! ## C7: 16-bit word-array reads -/

/-- C7 counterexample: a word-array read whose primitive reports the
under-read advisory (`ksfTkErrBusUnderRead`, not `ksfTkErrOk`) with byte count
4 leaves the elements unswapped even though the configured order differs from
host order, refuting the claim that the elements are always swapped when the
orders differ. -/
theorem word_array_read_no_swap_on_advisory :
    (readRegisterUInt16ArrayReg16 sfTkByteOrder.LittleEndian
        sfTkByteOrder.BigEndian ksfTkErrBusUnderRead 4 [0x1234, 0x5678]).2.2
      ≠ List.map sftk_byte_swap16 [0x1234, 0x5678] := by
  decide

/-- C7 as amended: on a word-array read that completes with `ksfTkErrOk`, when
the configured byte order differs from host order every element is
byte-swapped individually; the out-parameter word count is the primitive's raw
byte count divided by two with integer truncation (so an odd byte count is
truncated), and that division — with the status passed through unchanged —
happens on every path, `Ok` or not.  Both the generic-bus variant and the
two-wire binding's variant behave this way. -/
theorem word_array_read_swap_and_truncate (host cfg : sfTkByteOrder)
    (retValue : Int) (rawCount : Nat) (buf : List Nat)
    (horder : host ≠ cfg) (hok : retValue = ksfTkErrOk) :
    readRegisterUInt16ArrayReg16 host cfg retValue rawCount buf
        = (retValue, rawCount / 2, buf.map sftk_byte_swap16) ∧
    readRegister16Region16 host cfg retValue rawCount buf
        = (retValue, rawCount / 2, buf.map sftk_byte_swap16) ∧
    (∀ (status : Int) (rc : Nat) (b : List Nat),
      (readRegisterUInt16ArrayReg16 host cfg status rc b).2.1 = rc / 2 ∧
      (readRegisterUInt16ArrayReg16 host cfg status rc b).1 = status ∧
      (readRegister16Region16 host cfg status rc b).2.1 = rc / 2 ∧
      (readRegister16Region16 host cfg status rc b).1 = status) := by
  refine ⟨?_, ?_, fun status rc b => ⟨rfl, rfl, rfl, rfl⟩⟩
  · unfold readRegisterUInt16ArrayReg16
    rw [if_pos ⟨hok, horder⟩]
  · unfold readRegister16Region16
    rw [if_pos ⟨hok, horder⟩]

/-- Witness for C7 at a concrete input: orders differ, status `Ok`, odd raw
byte count 5 truncated to word count 2. -/
theorem word_array_read_swap_and_truncate_witness :
    readRegisterUInt16ArrayReg16 sfTkByteOrder.LittleEndian
        sfTkByteOrder.BigEndian ksfTkErrOk 5 [0x1234]
      = (ksfTkErrOk, 5 / 2, [0x1234].map sftk_byte_swap16) :=
  (word_array_read_swap_and_truncate sfTkByteOrder.LittleEndian
    sfTkByteOrder.BigEndian ksfTkErrOk 5 [0x1234] (by decide) rfl).1

/-! ## C8: sentinel defaults of the addressed buses -/

/-- C8: a default-constructed two-wire bus reports address 0 (the no-address
sentinel) and a send-stop flag of `true`, and a default-constructed
chip-select bus reports select line 0 (the no-pin sentinel). -/
theorem addressed_bus_sentinel_defaults :
    sfTkII2CDefault.address = 0 ∧ sfTkII2CDefault.stop = true ∧
      sfTkISPIDefault.cs = 0 :=
  ⟨rfl, rfl, rfl⟩

/-! ## C9: error asymmetry of the stream-adapter bus -/

/-- C9: the adapter's write returns only the data-write status — the result of
writing the address bytes is discarded and the data write is performed
unconditionally — whereas the adapter's read returns a failing address-write
status and performs no read. -/
theorem serial_bus_error_asymmetry :
    (∀ (regWriteResult dataWriteResult : Int) (hasReg : Bool)
        (regLength dataLength : Nat),
      (sfTkISerialBus_writeRegister regWriteResult dataWriteResult hasReg
          regLength dataLength).1 = dataWriteResult ∧
      SerialOp.writeOp dataLength ∈
        (sfTkISerialBus_writeRegister regWriteResult dataWriteResult hasReg
          regLength dataLength).2) ∧
    (∀ (regWriteResult readResult : Int) (readCount regLength numBytes : Nat),
      regWriteResult ≠ ksfTkErrOk → 0 < regLength →
      sfTkISerialBus_readRegister regWriteResult readResult readCount false
          true regLength numBytes
        = (regWriteResult, none, [SerialOp.writeOp regLength])) := by
  constructor
  · intro regWriteResult dataWriteResult hasReg regLength dataLength
    unfold sfTkISerialBus_writeRegister
    split
    · exact ⟨rfl, by simp⟩
    · exact ⟨rfl, by simp⟩
  · intro regWriteResult readResult readCount regLength numBytes hfail hreg
    unfold sfTkISerialBus_readRegister
    rw [if_neg (by simp), if_pos ⟨rfl, hreg⟩, if_pos hfail]

/-- Witness for C9 at a concrete input: a failing address write
(`ksfTkErrFal`-style code -1) on the read path is surfaced with no read
performed. -/
theorem serial_bus_error_asymmetry_witness :
    sfTkISerialBus_readRegister ksfTkErrFail ksfTkErrOk 4 false true 1 8
      = (ksfTkErrFail, none, [SerialOp.writeOp 1]) :=
  serial_bus_error_asymmetry.2 ksfTkErrFail ksfTkErrOk 4 1 8 (by decide)
    (by decide)

/-! ## C10: positivity of the transfer chunk size -/

lemma applyBufferChunkSizeOps_pos (ops : List Nat) :
    ∀ start : Nat, 0 < start → 0 < applyBufferChunkSizeOps start ops := by
  induction ops with
  | nil => intro start h; exact h
  | cons op rest ih =>
    intro start h
    show 0 < applyBufferChunkSizeOps (setBufferChunkSize start op) rest
    apply ih
    unfold setBufferChunkSize
    split
    · next hop => exact hop
    · exact h

/-- C10: the chunk size starts at the positive default 32, and
`setBufferChunkSize` ignores a zero argument, so after every sequence of
`setBufferChunkSize` calls the stored chunk size is still positive. -/
theorem bufferChunkSize_always_positive :
    0 < kDefaultBufferChunk ∧
    ∀ ops : List Nat,
      0 < applyBufferChunkSizeOps kDefaultBufferChunk ops :=
  ⟨by decide, fun ops => applyBufferChunkSizeOps_pos ops kDefaultBufferChunk
    (by decide)⟩

/-! ## C1, C2: the chunked two-wire read -/

lemma i2cReadLoop_zero_bytes (bufferChunkSize : Nat) (cfgStop : Bool)
    (supply : Nat → Nat) (fuel k : Nat) :
    i2cReadLoop bufferChunkSize cfgStop supply fuel 0 k = ([], 0, false) := by
  cases fuel <;> rfl

/-- Under full supply (the peripheral yields every byte requested), the loop
issues `(N - 1) / C` chunks of size `C` with the configured framing followed
by one final chunk of the remaining `N - C * ((N - 1) / C)` bytes with stop
framing forced, ends with zero bytes remaining, and does not abort. -/
lemma i2cReadLoop_full_supply (C : Nat) (cfg : Bool) (supply : Nat → Nat)
    (hC : 0 < C) (hC2 : C ≤ 255) (hs : ∀ k, C ≤ supply k) :
    ∀ fuel N k, N ≤ fuel → 0 < N →
      i2cReadLoop C cfg supply fuel N k =
        (List.replicate ((N - 1) / C) ⟨C, cfg, C⟩
            ++ [⟨N - C * ((N - 1) / C), true, N - C * ((N - 1) / C)⟩],
          0, false) := by
  intro fuel
  induction fuel with
  | zero => intro N k h1 h2; omega
  | succ fuel ih =>
    intro N k h1 h2
    rcases le_or_lt N C with hNC | hNC
    · have e1 : min N C % 256 = N := by
        rw [Nat.min_eq_left hNC, Nat.mod_eq_of_lt (by omega)]
      have e2 : min (supply k) N = N := Nat.min_eq_right (hNC.trans (hs k))
      have e3 : (N - 1) / C = 0 := Nat.div_eq_of_lt (by omega)
      simp [i2cReadLoop, e1, e2, e3, h2.ne', i2cReadLoop_zero_bytes]
    · have e1 : min N C % 256 = C := by
        rw [Nat.min_eq_right (le_of_lt hNC), Nat.mod_eq_of_lt (by omega)]
      have e2 : min (supply k) C = C := Nat.min_eq_right (hs k)
      have hne : C ≠ N := by omega
      have hrec := ih (N - C) (k + 1) (by omega) (by omega)
      have hdiv : (N - 1) / C = (N - C - 1) / C + 1 := by
        rw [show N - 1 = (N - C - 1) + C from by omega, Nat.add_div_right _ hC]
      have harith : N - C * ((N - C - 1) / C + 1)
          = N - C - C * ((N - C - 1) / C) := by
        rw [Nat.mul_succ]; omega
      simp [i2cReadLoop, e1, e2, h2.ne', hne, hC.ne', hrec, hdiv, harith,
        List.replicate_succ]

/-- C1 counterexample: with the default configured framing (`stop() = true`),
a 16-byte read in chunks of 8 on a fully supplied bus passes stop framing on
the first chunk as well, although that chunk is not the final one (its size 8
differs from the 16 bytes then remaining) — refuting "stop framing only on
the final chunk". -/
theorem i2c_chunked_read_stop_framing_cex :
    ¬ (∀ e ∈ (readRegisterRegionAnyAddress true false 8 true true
        (fun _ => 255) 16).events.dropLast, e.stopFlag = false) := by
  decide

/-- C1 as amended: for a chunked read of `0 < N ≤ 65535` bytes with chunk
size `0 < C ≤ 255` (the bounds the `uint16_t nOrig` and `uint8_t nChunk`
declarations impose) in which the peripheral fully supplies every request,
the loop issues `⌈N / C⌉` chunk requests; every chunk before the last
requests `min(remaining, C) = C` bytes with the bus's configured framing,
the final chunk requests the remaining bytes with stop framing forced, the
out-parameter is set to `N`, and the call returns `ksfTkErrOk`. -/
theorem i2c_chunked_read_full_supply (C N : Nat) (cfg : Bool)
    (supply : Nat → Nat) (hC : 0 < C) (hC2 : C ≤ 255) (hs : ∀ k, C ≤ supply k)
    (hN : 0 < N) (hN2 : N ≤ 65535) :
    (readRegisterRegionAnyAddress true false C cfg true supply N).status
        = ksfTkErrOk ∧
    (readRegisterRegionAnyAddress true false C cfg true supply N).readBytes
        = some N ∧
    (readRegisterRegionAnyAddress true false C cfg true supply N).events.length
        = (N + C - 1) / C ∧
    (∀ e ∈ (readRegisterRegionAnyAddress true false C cfg true supply
        N).events.dropLast, e.requested = C ∧ e.stopFlag = cfg ∧
        e.returned = C) ∧
    (readRegisterRegionAnyAddress true false C cfg true supply
        N).events.getLast? = some ⟨N - C * ((N + C - 1) / C - 1), true,
          N - C * ((N + C - 1) / C - 1)⟩ := by
  have hrun := i2cReadLoop_full_supply C cfg supply hC hC2 hs N N 0 le_rfl hN
  have hdiv : (N + C - 1) / C = (N - 1) / C + 1 := by
    rw [show N + C - 1 = (N - 1) + C from by omega, Nat.add_div_right _ hC]
  have hres : readRegisterRegionAnyAddress true false C cfg true supply N =
      ⟨ksfTkErrOk, some N,
        List.replicate ((N - 1) / C) ⟨C, cfg, C⟩
          ++ [⟨N - C * ((N - 1) / C), true, N - C * ((N - 1) / C)⟩], true⟩ := by
    simp [readRegisterRegionAnyAddress, hrun, hN.ne',
      Nat.mod_eq_of_lt (show N < 65536 by omega)]
  refine ⟨by simp [hres], by simp [hres], ?_, ?_, ?_⟩
  · rw [hres]
    simp [hdiv]
  · rw [hres]
    intro e he
    simp only [List.dropLast_concat] at he
    rcases List.eq_of_mem_replicate he with rfl
    exact ⟨rfl, rfl, rfl⟩
  · rw [hres]
    simp [List.getLast?_concat, hdiv]

/-- Witness for C1 at a concrete input: 20 bytes in chunks of 8 with
configured restart framing, fully supplied. -/
theorem i2c_chunked_read_full_supply_witness :
    (readRegisterRegionAnyAddress true false 8 false true (fun _ => 255)
        20).status = ksfTkErrOk ∧
    (readRegisterRegionAnyAddress true false 8 false true (fun _ => 255)
        20).readBytes = some 20 ∧
    (readRegisterRegionAnyAddress true false 8 false true (fun _ => 255)
        20).events.length = (20 + 8 - 1) / 8 ∧
    (∀ e ∈ (readRegisterRegionAnyAddress true false 8 false true (fun _ => 255)
        20).events.dropLast, e.requested = 8 ∧ e.stopFlag = false ∧
        e.returned = 8) ∧
    (readRegisterRegionAnyAddress true false 8 false true (fun _ => 255)
        20).events.getLast? = some ⟨20 - 8 * ((20 + 8 - 1) / 8 - 1), true,
          20 - 8 * ((20 + 8 - 1) / 8 - 1)⟩ :=
  i2c_chunked_read_full_supply 8 20 false (fun _ => 255) (by decide)
    (by decide) (fun k => by show (8 : Nat) ≤ 255; decide) (by decide) (by decide)

/-- When the first `j` chunks are fully supplied and chunk `j` — which is not
the final chunk: `C * (j + 1) < N` bytes were requested in total — returns
zero bytes, the loop aborts immediately through the `nReturned == 0` early
return after issuing exactly `j + 1` requests. -/
lemma i2cReadLoop_abort (C : Nat) (cfg : Bool) (supply : Nat → Nat)
    (hC : 0 < C) (hC2 : C ≤ 255) :
    ∀ j fuel N k, N ≤ fuel → (∀ i, i < j → C ≤ supply (k + i)) →
      supply (k + j) = 0 → C * (j + 1) < N →
      i2cReadLoop C cfg supply fuel N k =
        (List.replicate j ⟨C, cfg, C⟩ ++ [⟨C, cfg, 0⟩], N - C * j, true) := by
  intro j
  induction j with
  | zero =>
    intro fuel N k hfuel hfull h0 hlt
    have hCltN : C < N := by simpa using hlt
    cases fuel with
    | zero => omega
    | succ fuel =>
      have e1 : min N C % 256 = C := by
        rw [Nat.min_eq_right (le_of_lt hCltN), Nat.mod_eq_of_lt (by omega)]
      have h0k : supply k = 0 := by simpa using h0
      have hne : C ≠ N := by omega
      simp [i2cReadLoop, e1, h0k, show N ≠ 0 from by omega, hne]
  | succ j ih =>
    intro fuel N k hfuel hfull h0 hlt
    have hexp : C * (j + 1 + 1) = C * (j + 1) + C := by ring
    have hmono : C * 1 ≤ C * (j + 1 + 1) := Nat.mul_le_mul_left C (by omega)
    have hCltN : C < N := by omega
    cases fuel with
    | zero => omega
    | succ fuel =>
      have e1 : min N C % 256 = C := by
        rw [Nat.min_eq_right (le_of_lt hCltN), Nat.mod_eq_of_lt (by omega)]
      have hsk : C ≤ supply k := by simpa using hfull 0 (by omega)
      have e2 : min (supply k) C = C := Nat.min_eq_right hsk
      have hne : C ≠ N := by omega
      have hfull2 : ∀ i, i < j → C ≤ supply (k + 1 + i) := by
        intro i hi
        rw [show k + 1 + i = k + (i + 1) from by omega]
        exact hfull (i + 1) (by omega)
      have h02 : supply (k + 1 + j) = 0 := by
        rw [show k + 1 + j = k + (j + 1) from by omega]
        exact h0
      have hrec := ih fuel (N - C) (k + 1) (by omega) hfull2 h02 (by omega)
      have harith : N - C * (j + 1) = N - C - C * j := by
        rw [Nat.mul_succ]; omega
      simp [i2cReadLoop, e1, e2, show N ≠ 0 from by omega, hne, hC.ne', hrec,
        harith, List.replicate_succ]

/-- C2 counterexample: chunk size 8, a 24-byte read (3 chunks), the peripheral
supplies all 8 bytes of chunk 1 and zero bytes on chunk 2.  The claim says the
out-parameter then equals the 8 bytes collected before the failing chunk; in
fact the early return leaves it at the 0 assigned on entry. -/
theorem i2c_chunked_read_abort_readBytes_cex :
    (readRegisterRegionAnyAddress true false 8 true true
        (fun k => if k = 0 then 8 else 0) 24).readBytes ≠ some 8 := by
  decide

/-- C2 as amended: if every chunk before chunk `j` is fully supplied and
chunk `j` — not the final one — returns zero bytes, the read aborts
immediately (exactly `j + 1` requests are issued) with the under-read code
`ksfTkErrBusUnderRead`, and the out-parameter is left at 0, the value
assigned on entry, regardless of the bytes collected before the failing
chunk. -/
theorem i2c_chunked_read_zero_chunk_abort (C N j : Nat) (cfg : Bool)
    (supply : Nat → Nat) (hC : 0 < C) (hC2 : C ≤ 255)
    (hfull : ∀ i, i < j → C ≤ supply i) (h0 : supply j = 0)
    (hlt : C * (j + 1) < N) :
    readRegisterRegionAnyAddress true false C cfg true supply N =
      ⟨ksfTkErrBusUnderRead, some 0,
        List.replicate j ⟨C, cfg, C⟩ ++ [⟨C, cfg, 0⟩], true⟩ := by
  have hrun := i2cReadLoop_abort C cfg supply hC hC2 j N N 0 le_rfl
    (fun i hi => by simpa using hfull i hi) (by simpa using h0) hlt
  simp [readRegisterRegionAnyAddress, hrun, show N ≠ 0 from by omega]

/-- Witness for C2 at a concrete input: chunk 2 of 3 returns zero bytes. -/
theorem i2c_chunked_read_zero_chunk_abort_witness :
    readRegisterRegionAnyAddress true false 8 true true
        (fun k => if k = 0 then 8 else 0) 24 =
      ⟨ksfTkErrBusUnderRead, some 0,
        List.replicate 1 ⟨8, true, 8⟩ ++ [⟨8, true, 0⟩], true⟩ :=
  i2c_chunked_read_zero_chunk_abort 8 24 1 true (fun k => if k = 0 then 8 else 0)
    (by decide) (by decide) (by decide) (by decide) (by decide)
